import Mathlib

/-!
Verification of the execution core of the nautilus_trader repository:
a shallow embedding in Lean 4 of the Order / AtomicOrder model and
OrderFactory (order.pyx), the test clock and timers (clock.pyx), and the
in-memory execution database and execution engine (execution.pyx),
together with theorems settling the specification's claims about them.

Modelling conventions:
  * datetimes are natural numbers (an absolute timestamp; the scenarios
    use seconds from the Unix epoch),
  * `Quantity` values are naturals, `Price` / `Decimal` values are exact
    rationals (the claims under consideration only compare decimal values
    for equality at fixed precisions, where exact rational arithmetic
    agrees with the source's decimal arithmetic),
  * identifiers (OrderId, AccountId, Label, Symbol, ...) are strings,
  * a Python method that can raise `ConditionFailed` becomes a function
    into `Except String _` (or `Option _`); the checks are translated in
    source order and each check precedes every mutation it guards, as in
    the source.
-/

namespace Nautilus

/-! ## Enumerations (model/c_enums) -/

inductive OrderSide where
  | UNDEFINED | BUY | SELL
deriving DecidableEq, Repr

inductive OrderType where
  | UNDEFINED | MARKET | LIMIT | STOP_MARKET | STOP_LIMIT | MIT
deriving DecidableEq, Repr

inductive OrderState where
  | INITIALIZED | INVALID | DENIED | SUBMITTED | ACCEPTED | REJECTED
  | WORKING | CANCELLED | EXPIRED | PARTIALLY_FILLED | FILLED | OVER_FILLED
deriving DecidableEq, Repr

inductive OrderPurpose where
  | UNDEFINED | NONE | ENTRY | STOP_LOSS | TAKE_PROFIT
deriving DecidableEq, Repr

inductive TimeInForce where
  | UNDEFINED | DAY | GTC | GTD | FOC | IOC
deriving DecidableEq, Repr

/-- Source `PRICED_ORDER_TYPES` from order.pyx: order types which require a price. -/
def OrderType.isPriced : OrderType → Bool
  | .LIMIT | .STOP_MARKET | .STOP_LIMIT | .MIT => true
  | _ => false

/-! ## Order events (model/events)

Every order event carries `order_id`, `account_id` and `timestamp`; the
variant payloads carry exactly the fields `Order.apply` reads.  The
`order_side` on a fill is carried for the position model (the engine's
fill sub-protocol); `Order.apply` does not read it. -/

inductive OrderEventKind where
  | initialized
  | invalid
  | denied
  | submitted
  | rejected
  | accepted
  | working (order_id_broker : String)
  | cancelled
  | expired
  | modified (order_id_broker : String) (modified_quantity : ℕ) (modified_price : ℚ)
  | fill (execution_id : String) (position_id_broker : String)
         (order_side : OrderSide) (filled_quantity : ℕ) (average_price : ℚ)
deriving DecidableEq, Repr

structure OrderEvent where
  order_id : String
  account_id : String
  timestamp : ℕ
  kind : OrderEventKind
deriving DecidableEq, Repr

/-! ## Order (order.pyx, `cdef class Order`) -/

structure Order where
  id : String
  id_broker : Option String
  account_id : Option String
  position_id_broker : Option String
  execution_id : Option String
  symbol : String
  side : OrderSide
  type : OrderType
  quantity : ℕ
  timestamp : ℕ
  price : Option ℚ
  label : Option String
  purpose : OrderPurpose
  time_in_force : TimeInForce
  expire_time : Option ℕ
  filled_quantity : ℕ
  filled_timestamp : Option ℕ
  average_price : Option ℚ
  slippage : ℚ
  state : OrderState
  init_id : String
  is_buy : Bool
  is_sell : Bool
  is_working : Bool
  is_completed : Bool
  execution_ids : Finset String
  events : List OrderEvent
  last_event : OrderEvent
  event_count : ℕ
deriving DecidableEq

namespace Order

/-- Source `Order.__init__`: the precondition checks in source order, then the
field initialisation including the appended `OrderInitialized` event. -/
def init (order_id : String) (symbol : String) (order_side : OrderSide)
    (order_type : OrderType) (quantity : ℕ) (init_id : String)
    (timestamp : ℕ) (price : Option ℚ := none) (label : Option String := none)
    (order_purpose : OrderPurpose := .NONE)
    (time_in_force : TimeInForce := .DAY)
    (expire_time : Option ℕ := none) : Except String Order :=
  if order_side = .UNDEFINED then .error "order_side undefined" else
  if order_type = .UNDEFINED then .error "order_type undefined" else
  if order_purpose = .UNDEFINED then .error "order_purpose undefined" else
  if time_in_force = .UNDEFINED then .error "time_in_force undefined" else
  if ¬ 0 < quantity then .error "quantity not positive" else
  if order_type.isPriced ∧ price = none then .error "price missing" else
  if ¬ order_type.isPriced ∧ price ≠ none then .error "price not none" else
  if time_in_force = .GTD ∧ expire_time = none then .error "expire_time missing" else
  let initialized : OrderEvent :=
    { order_id := order_id
      -- OrderInitialized carries no account identifier; the field is unused
      account_id := ""
      timestamp := timestamp
      kind := .initialized }
  .ok
    { id := order_id
      id_broker := none
      account_id := none
      position_id_broker := none
      execution_id := none
      symbol := symbol
      side := order_side
      type := order_type
      quantity := quantity
      timestamp := timestamp
      price := price
      label := label
      purpose := order_purpose
      time_in_force := time_in_force
      expire_time := expire_time
      filled_quantity := 0
      filled_timestamp := none
      average_price := none
      slippage := 0
      state := .INITIALIZED
      init_id := init_id
      is_buy := order_side = .BUY
      is_sell := order_side = .SELL
      is_working := false
      is_completed := false
      execution_ids := ∅
      events := [initialized]
      last_event := initialized
      event_count := 1 }

/-- Source `Order._set_is_working_true`. -/
def setIsWorkingTrue (o : Order) : Order :=
  { o with is_working := true, is_completed := false }

/-- Source `Order._set_is_completed_true`. -/
def setIsCompletedTrue (o : Order) : Order :=
  { o with is_working := false, is_completed := true }

/-- The state chosen by `Order._set_filled_state` from the filled and
total quantities. -/
def filledStateOf (o : Order) : OrderState :=
  if o.filled_quantity < o.quantity then .PARTIALLY_FILLED
  else if o.filled_quantity = o.quantity then .FILLED
  else .OVER_FILLED

/-- Source `Order._set_filled_state`. -/
def setFilledState (o : Order) : Order :=
  { o with state := filledStateOf o }

/-- The slippage computed by `Order._set_slippage`: unchanged for
non-priced order types, otherwise the signed difference of
`average_price` and `price`.  The source computes the difference as
doubles at the precision of `average_price`; here exactly in ℚ.  A priced
order always carries a price (enforced at construction and preserved by
`OrderModified`), so the `none` fallbacks are unreachable. -/
def slippageOf (o : Order) : ℚ :=
  if ¬ o.type.isPriced then o.slippage
  else
    match o.average_price, o.price with
    | some avg, some p => if o.side = .BUY then avg - p else p - avg
    | _, _ => o.slippage

/-- Source `Order._set_slippage`. -/
def setSlippage (o : Order) : Order :=
  { o with slippage := slippageOf o }

/-- Source `Order.apply`: the two precondition checks, the event-log update, then
the per-event-type state transition. -/
def apply (o : Order) (event : OrderEvent) : Except String Order :=
  if o.id ≠ event.order_id then .error "id not equal to event.order_id" else
  if o.account_id.isSome ∧ o.account_id ≠ some event.account_id then
    .error "account_id not equal to event.account_id"
  else applyUnchecked o event
where
  applyUnchecked (o : Order) (event : OrderEvent) : Except String Order :=
    let o := { o with
      events := o.events ++ [event]
      last_event := event
      event_count := o.event_count + 1 }
    match event.kind with
    | .invalid => .ok (setIsCompletedTrue { o with state := .INVALID })
    | .denied => .ok (setIsCompletedTrue { o with state := .DENIED })
    | .submitted =>
        .ok { o with state := .SUBMITTED, account_id := some event.account_id }
    | .rejected => .ok (setIsCompletedTrue { o with state := .REJECTED })
    | .accepted => .ok { o with state := .ACCEPTED }
    | .working id_broker =>
        .ok (setIsWorkingTrue { o with state := .WORKING, id_broker := some id_broker })
    | .cancelled => .ok (setIsCompletedTrue { o with state := .CANCELLED })
    | .expired => .ok (setIsCompletedTrue { o with state := .EXPIRED })
    | .modified id_broker mod_quantity mod_price =>
        .ok { o with
          id_broker := some id_broker
          quantity := mod_quantity
          price := some mod_price }
    | .fill exec_id pos_id_broker _ filled avg =>
        let o := { o with
          position_id_broker := some pos_id_broker
          execution_ids := insert exec_id o.execution_ids
          execution_id := some exec_id
          filled_quantity := filled
          filled_timestamp := some event.timestamp
          average_price := some avg }
        let o := setFilledState (setSlippage o)
        .ok (if o.state = .FILLED then setIsCompletedTrue o else o)
    | .initialized => .ok o

/-- Apply a sequence of order events, stopping at the first failure. -/
def applyList (o : Order) (events : List OrderEvent) : Except String Order :=
  events.foldlM apply o

end Order

/-! ## Clock and timers (clock.pyx)

`TimeEvent`s carry the timer's label and the firing timestamp; handlers are
modelled by opaque numeric identifiers (the test clock never invokes them,
it only returns them paired with events). -/

structure TimeEvent where
  label : String
  timestamp : ℕ
deriving DecidableEq, Repr

/-- Source `TimeEventHandler`: a bundled event and handler. -/
structure TimeEventHandler where
  event : TimeEvent
  handler : ℕ
deriving DecidableEq, Repr

/-- Source `Timer` (the `TestTimer` variant): `Timer.__init__` checks
`Condition.positive(interval)`, so a constructed timer always has a
positive interval; that check is carried as the structure invariant
`interval_pos` (established by `Timer.make` below). -/
structure Timer where
  label : String
  callback : ℕ
  interval : ℕ
  start_time : ℕ
  next_time : ℕ
  stop_time : Option ℕ
  expired : Bool
  interval_pos : 0 < interval

/-- Source `Timer.__init__`: the construction checks (positive interval; when a
stop time is given, `start_time + interval ≤ stop_time`), then the field
initialisation with `next_time = start_time + interval`. -/
def Timer.make (label : String) (callback : ℕ) (interval : ℕ)
    (start_time : ℕ) (stop_time : Option ℕ) : Option Timer :=
  if h : 0 < interval then
    if match stop_time with
       | some stop => decide (start_time + interval ≤ stop)
       | none => true
    then
      some { label := label
             callback := callback
             interval := interval
             start_time := start_time
             next_time := start_time + interval
             stop_time := stop_time
             expired := false
             interval_pos := h }
    else none
  else none

/-- Source `Timer.iterate_event(event_id, now)`: returns the event at `next_time`,
advances `next_time` by `interval`, and marks the timer expired when a stop
time is set and `now ≥ stop_time`.  (Event identifiers are immaterial.) -/
def Timer.iterateEvent (t : Timer) (now : ℕ) : TimeEvent × Timer :=
  ({ label := t.label, timestamp := t.next_time },
   { t with
     next_time := t.next_time + t.interval
     expired := match t.stop_time with
       | some stop => t.expired || decide (now ≥ stop)
       | none => t.expired })

/-- The loop body of `TestTimer.advance`, with explicit fuel for
termination.  Within one call each firing time is a distinct natural
`≤ to_time` (the interval is positive), so `to_time + 1` iterations always
suffice; with that fuel the function computes exactly the source's
`while not self.expired and to_time >= self.next_time` loop, in which each
iteration calls `iterate_event` with `now` equal to the pre-increment
`next_time`. -/
def Timer.advanceFuel : ℕ → Timer → ℕ → List TimeEvent × Timer
  | 0, t, _ => ([], t)
  | fuel + 1, t, to_time =>
    if ¬ t.expired ∧ t.next_time ≤ to_time then
      let (e, t') := t.iterateEvent t.next_time
      let (rest, t'') := Timer.advanceFuel fuel t' to_time
      (e :: rest, t'')
    else ([], t)

/-- Source `TestTimer.advance(to_time)`. -/
def Timer.advance (t : Timer) (to_time : ℕ) : List TimeEvent × Timer :=
  Timer.advanceFuel (to_time + 1) t to_time

/-- Source `TestClock` state: the current time, the insertion-ordered timers
(`_timers` / `_stack`; Python dicts preserve insertion order), and the
incrementally maintained `timer_count` and `next_event_time`. -/
structure TestClock where
  time : ℕ
  timers : List Timer
  timer_count : ℕ
  next_event_time : Option ℕ

namespace TestClock

/-- Source `TestClock.__init__` (default initial time is the Unix epoch, 0). -/
def init (initial_time : ℕ := 0) : TestClock :=
  { time := initial_time, timers := [], timer_count := 0, next_event_time := none }

/-- Source `Clock._update_timing` (with `_update_stack`'s
`timer_count = len(timers)` recomputed alongside, as both are always
called together): the minimum `next_time` over the stack. -/
def updateTiming (c : TestClock) : TestClock :=
  let c := { c with timer_count := c.timers.length }
  match c.timers with
  | [] => { c with next_event_time := none }
  | t :: rest =>
      let m := rest.foldl (fun acc u => min acc u.next_time) t.next_time
      { c with next_event_time := some m }

/-- Source `Clock._add_timer`. -/
def addTimer (c : TestClock) (t : Timer) : TestClock :=
  updateTiming { c with timers := c.timers ++ [t] }

/-- Whether a timer with the given label is registered
(`label in self._timers`, also covering `_handlers` which always holds the
same labels). -/
def hasLabel (c : TestClock) (label : String) : Bool :=
  c.timers.any (fun t => t.label = label)

/-- Source `Clock.set_time_alert(label, alert_time)`: label must be fresh and
`alert_time ≥ time_now()`; the timer is built with
`interval = alert_time - now`, `start_time = now`, `stop_time = alert_time`
(so `Timer.__init__`'s positive-interval check additionally forces
`alert_time > now`). -/
def setTimeAlert (c : TestClock) (label : String) (alert_time : ℕ)
    (handler : ℕ := 0) : Option TestClock :=
  if c.hasLabel label then none
  else if ¬ alert_time ≥ c.time then none
  else
    match Timer.make label handler (alert_time - c.time) c.time (some alert_time) with
    | some t => some (c.addTimer t)
    | none => none

/-- Source `Clock.set_timer(label, interval, start_time, stop_time)`: label fresh,
`interval > 0`, default `start_time = now`, and when a stop time is given,
`stop_time > now` and `start_time + interval ≤ stop_time`. -/
def setTimer (c : TestClock) (label : String) (interval : ℕ)
    (start_time : Option ℕ := none) (stop_time : Option ℕ := none)
    (handler : ℕ := 0) : Option TestClock :=
  if c.hasLabel label then none
  else if ¬ 0 < interval then none
  else
    let start := start_time.getD c.time
    if match stop_time with
       | some stop => decide (stop > c.time) && decide (start + interval ≤ stop)
       | none => true
    then
      match Timer.make label handler interval start stop_time with
      | some t => some (c.addTimer t)
      | none => none
    else none

/-- Source `TestClock.advance_time(to_time)`: early return of the empty list when
there are no timers or `to_time < next_event_time` (note: without touching
the clock's time); otherwise advance every timer in stack order collecting
its events, drop the timers that expired, recompute the timing, and set
the time to `to_time`.  (The `next_event_time = none` arm with a nonzero
`timer_count` is unreachable: the fields are recomputed together.) -/
def advanceTime (c : TestClock) (to_time : ℕ) : List TimeEventHandler × TestClock :=
  if c.timer_count = 0 then ([], c)
  else
    match c.next_event_time with
    | none => ([], c)
    | some next =>
      if to_time < next then ([], c)
      else
        let advanced := c.timers.map (fun t => t.advance to_time)
        let events := advanced.foldl
          (fun acc p => acc ++ p.1.map (fun e => TimeEventHandler.mk e p.2.callback)) []
        let remaining := (advanced.map Prod.snd).filter (fun t => ¬ t.expired)
        let c := updateTiming { c with timers := remaining }
        (events, { c with time := to_time })

end TestClock

/-! ## Position and Account (collaborator models)

The Position and Account classes are code of this repository that is not
under src/ (execution.pyx only calls them); they are modelled from the
spec. -/

/-- Modelled from the spec: the `Position` class (model/position, absent
from src/).  "Created by the first fill on an OrderId; subsequent fills on
orders mapped to the same PositionId modify it; it closes when net
quantity returns to zero.  Exposes `is_closed` and `return_realized`.
(Positions are a collaborator model; the engine treats them as opaque
objects obeying `apply(fill)` and `is_closed`.)"  The net (relative)
quantity adds BUY fill quantities and subtracts SELL fill quantities. -/
structure Position where
  id : String
  relative_quantity : ℤ
  is_closed : Bool
  return_realized : ℚ
  event_count : ℕ
deriving DecidableEq

/-- Modelled from the spec: the signed quantity a fill event contributes
to a position's net quantity. -/
def fillRelativeQuantity (side : OrderSide) (filled : ℕ) : ℤ :=
  match side with
  | .BUY => (filled : ℤ)
  | _ => -(filled : ℤ)

/-- Modelled from the spec: `Position(position_id, fill)` — a position
opened by its first fill. -/
def Position.fromFill (position_id : String) (e : OrderEvent) : Position :=
  match e.kind with
  | .fill _ _ side filled _ =>
      let rel := fillRelativeQuantity side filled
      { id := position_id
        relative_quantity := rel
        is_closed := rel = 0
        return_realized := 0
        event_count := 1 }
  | _ =>
      { id := position_id, relative_quantity := 0, is_closed := true
        return_realized := 0, event_count := 1 }

/-- Modelled from the spec: `Position.apply(fill)` — subsequent fills
modify the net quantity; the position closes when it returns to zero. -/
def Position.applyFill (p : Position) (e : OrderEvent) : Position :=
  match e.kind with
  | .fill _ _ side filled _ =>
      let rel := p.relative_quantity + fillRelativeQuantity side filled
      { p with
        relative_quantity := rel
        is_closed := rel = 0
        event_count := p.event_count + 1 }
  | _ => p

/-- Source `AccountStateEvent` (only the fields the engine reads). -/
structure AccountStateEvent where
  account_id : String
  timestamp : ℕ
deriving DecidableEq, Repr

/-- Modelled from the spec: the `Account` class (absent from src/).
"Holds last-known state from AccountStateEvent ... `initialized` becomes
true after the first applied event; subsequent events must carry the same
account_id." -/
structure Account where
  id : Option String
  initialized : Bool
  events : List AccountStateEvent
deriving DecidableEq, Repr

/-- Modelled from the spec: `Account.apply(event)`. -/
def Account.applyEvent (a : Account) (e : AccountStateEvent) : Account :=
  { id := some e.account_id, initialized := true, events := a.events ++ [e] }

/-! ## Execution database (execution.pyx, `InMemoryExecutionDatabase`)

Owning stores are association lists keyed by identifier strings; index
sets are `Finset String`. -/

structure DbState where
  cached_orders : List (String × Order)
  cached_positions : List (String × Position)
  strategies : Finset String
  index_order_position : List (String × String)
  index_order_strategy : List (String × String)
  index_position_strategy : List (String × String)
  index_position_orders : List (String × Finset String)
  index_strategy_orders : List (String × Finset String)
  index_strategy_positions : List (String × Finset String)
  index_orders : Finset String
  index_orders_working : Finset String
  index_orders_completed : Finset String
  index_positions : Finset String
  index_positions_open : Finset String
  index_positions_closed : Finset String
deriving DecidableEq

namespace DbState

/-- Source `InMemoryExecutionDatabase.__init__`. -/
def empty : DbState :=
  { cached_orders := []
    cached_positions := []
    strategies := ∅
    index_order_position := []
    index_order_strategy := []
    index_position_strategy := []
    index_position_orders := []
    index_strategy_orders := []
    index_strategy_positions := []
    index_orders := ∅
    index_orders_working := ∅
    index_orders_completed := ∅
    index_positions := ∅
    index_positions_open := ∅
    index_positions_closed := ∅ }

/-- Association-list lookup (a Python dict `get`). -/
def alistGet {β : Type} (l : List (String × β)) (k : String) : Option β :=
  match l.find? (fun p => p.1 = k) with
  | some p => some p.2
  | none => none

/-- Association-list store (a Python dict `d[k] = v`). -/
def alistPut {β : Type} (l : List (String × β)) (k : String) (v : β) :
    List (String × β) :=
  match l.find? (fun p => p.1 = k) with
  | some _ => l.map (fun p => if p.1 = k then (k, v) else p)
  | none => l ++ [(k, v)]

/-- Source `add_strategy(strategy)`. -/
def addStrategy (db : DbState) (strategy_id : String) : Option DbState :=
  if strategy_id ∈ db.strategies then none
  else some { db with strategies := insert strategy_id db.strategies }

/-- Source `add_order(order, strategy_id, position_id)`: the four freshness
checks, the inserts into the owning store and the order indexes, and the
four conditional index updates (including the hard assertion that a
pre-existing position→strategy mapping agrees). -/
def addOrder (db : DbState) (order : Order) (strategy_id : String)
    (position_id : String) : Option DbState :=
  if (alistGet db.cached_orders order.id).isSome then none else
  if order.id ∈ db.index_orders then none else
  if (alistGet db.index_order_strategy order.id).isSome then none else
  if (alistGet db.index_order_position order.id).isSome then none else
  let db := { db with
    cached_orders := alistPut db.cached_orders order.id order
    index_orders := insert order.id db.index_orders
    index_order_strategy := alistPut db.index_order_strategy order.id strategy_id
    index_order_position := alistPut db.index_order_position order.id position_id }
  match alistGet db.index_position_strategy position_id with
  | none =>
      some (addOrderTail
        { db with index_position_strategy :=
            alistPut db.index_position_strategy position_id strategy_id }
        order strategy_id position_id)
  | some existing =>
      -- `assert strategy_id.equals(self._index_position_strategy[position_id])`
      if strategy_id = existing then
        some (addOrderTail db order strategy_id position_id)
      else none
where
  /-- The three remaining index updates of `add_order` (position→orders,
  strategy→orders, strategy→positions). -/
  addOrderTail (db : DbState) (order : Order) (strategy_id : String)
      (position_id : String) : DbState :=
    let pos_orders := (alistGet db.index_position_orders position_id).getD ∅
    let strat_orders := (alistGet db.index_strategy_orders strategy_id).getD ∅
    let strat_positions := (alistGet db.index_strategy_positions strategy_id).getD ∅
    { db with
      index_position_orders :=
        alistPut db.index_position_orders position_id (insert order.id pos_orders)
      index_strategy_orders :=
        alistPut db.index_strategy_orders strategy_id (insert order.id strat_orders)
      index_strategy_positions :=
        alistPut db.index_strategy_positions strategy_id (insert position_id strat_positions) }

/-- Source `add_position(position, strategy_id)`. -/
def addPosition (db : DbState) (position : Position) : Option DbState :=
  if (alistGet db.cached_positions position.id).isSome then none else
  if position.id ∈ db.index_positions then none else
  if position.id ∈ db.index_positions_open then none else
  some { db with
    cached_positions := alistPut db.cached_positions position.id position
    index_positions := insert position.id db.index_positions
    index_positions_open := insert position.id db.index_positions_open }

/-- Source `update_order(order)`: re-partition between working / completed based
on the order's flags. -/
def updateOrder (db : DbState) (order : Order) : DbState :=
  if order.is_working then
    { db with
      index_orders_working := insert order.id db.index_orders_working
      index_orders_completed := db.index_orders_completed.erase order.id }
  else if order.is_completed then
    { db with
      index_orders_completed := insert order.id db.index_orders_completed
      index_orders_working := db.index_orders_working.erase order.id }
  else db

/-- Source `update_position(position)`. -/
def updatePosition (db : DbState) (position : Position) : DbState :=
  if position.is_closed then
    { db with
      index_positions_closed := insert position.id db.index_positions_closed
      index_positions_open := db.index_positions_open.erase position.id }
  else db

/-- Replace the cached order object (the Python engine mutates the cached
`Order` in place; the pure embedding writes the updated order back). -/
def cacheOrder (db : DbState) (order : Order) : DbState :=
  { db with cached_orders := alistPut db.cached_orders order.id order }

/-- Replace the cached position object (in-place mutation in Python). -/
def cachePosition (db : DbState) (position : Position) : DbState :=
  { db with cached_positions := alistPut db.cached_positions position.id position }

/-- Source `reset()`: clears every index and owning store. -/
def reset (_db : DbState) : DbState := empty

end DbState

/-! ## Execution engine (execution.pyx, `ExecutionEngine`) -/

inductive PositionEventKind where
  | opened | modified | closed
deriving DecidableEq, Repr

/-- A position event (`PositionOpened` / `PositionModified` /
`PositionClosed`) as constructed by the engine: the position, the owning
strategy and the source event's timestamp. -/
structure PositionEvent where
  kind : PositionEventKind
  position : Position
  strategy_id : String
  timestamp : ℕ
deriving DecidableEq

/-- The event taxonomy dispatched by `ExecutionEngine._handle_event`. -/
inductive EngineEvent where
  | order (e : OrderEvent)
  | position (e : PositionEvent)
  | account (e : AccountStateEvent)
deriving DecidableEq

/-- Source `ExecutionEngine` state.  `delivered` records the events forwarded to
registered strategies (`_send_to_strategy`), `portfolio_returns` the
realized returns handed to the portfolio analyzer, and `log` the error and
warning log lines. -/
structure Engine where
  db : DbState
  account : Account
  portfolio_returns : List (ℕ × ℚ)
  portfolio_transactions : List AccountStateEvent
  registered_strategies : Finset String
  delivered : List (String × EngineEvent)
  command_count : ℕ
  event_count : ℕ
  log : List String
deriving DecidableEq

namespace Engine

/-- Source `_send_to_strategy(event, strategy_id)`. -/
def sendToStrategy (s : Engine) (event : EngineEvent) (strategy_id : String) :
    Engine :=
  if strategy_id ∈ s.registered_strategies then
    { s with delivered := s.delivered ++ [(strategy_id, event)] }
  else
    { s with log := s.log ++ ["error: cannot send event to strategy"] }

/-- Source `_handle_position_event(event)`: a `PositionClosed` additionally hands
the realized return to the portfolio analyzer; the event is always
forwarded to its strategy. -/
def handlePositionEvent (s : Engine) (e : PositionEvent) : Engine :=
  let s :=
    if e.kind = .closed then
      { s with portfolio_returns :=
          s.portfolio_returns ++ [(e.timestamp, e.position.return_realized)] }
    else s
  sendToStrategy s (.position e) e.strategy_id

/-- The engine's recursive `handle_event` call on a derived position event
(`_position_opened` / `_position_modified` / `_position_closed` each call
`self.handle_event(position_event)`, which increments `event_count` and
dispatches to `_handle_position_event`; position events derive no further
events, so the recursion has depth one and is inlined here). -/
def handleDerivedPositionEvent (s : Engine) (e : PositionEvent) : Engine :=
  handlePositionEvent { s with event_count := s.event_count + 1 } e

/-- Source `_handle_order_fill(event, strategy_id)`: resolve the position id; if
absent log and drop; if no position is cached, create one, add it, forward
the fill and handle the derived `PositionOpened`; otherwise apply the fill
to the position, update it, and handle the derived `PositionClosed` or
`PositionModified`. -/
def handleOrderFill (s : Engine) (event : OrderEvent) (strategy_id : String) :
    Engine × Except String Unit :=
  match DbState.alistGet s.db.index_order_position event.order_id with
  | none =>
      ({ s with log := s.log ++ ["error: cannot process fill, position id not found"] },
       .ok ())
  | some position_id =>
    match DbState.alistGet s.db.cached_positions position_id with
    | none =>
        -- Position does not exist yet - create position
        let position := Position.fromFill position_id event
        match s.db.addPosition position with
        | none => (s, .error "add_position precondition failed")
        | some db =>
            let s := { s with db := db }
            let position_opened : PositionEvent :=
              { kind := .opened, position := position
                strategy_id := strategy_id, timestamp := event.timestamp }
            let s := sendToStrategy s (.order event) strategy_id
            (handleDerivedPositionEvent s position_opened, .ok ())
    | some position =>
        let position := position.applyFill event
        let s := { s with db := (s.db.cachePosition position).updatePosition position }
        let derived : PositionEvent :=
          { kind := if position.is_closed then .closed else .modified
            position := position, strategy_id := strategy_id
            timestamp := event.timestamp }
        let s := sendToStrategy s (.order event) strategy_id
        (handleDerivedPositionEvent s derived, .ok ())

/-- Source `_handle_order_event(event)`: fetch the order (log and drop when
absent), apply the event (a `ConditionFailed` in `Order.apply` propagates
as `.error`, with the engine state reflecting only the mutations performed
before the raise — the checks precede every mutation), update the order's
partition, resolve the strategy (log and drop when absent), then either
run the fill sub-protocol or forward the event. -/
def handleOrderEvent (s : Engine) (event : OrderEvent) :
    Engine × Except String Unit :=
  match DbState.alistGet s.db.cached_orders event.order_id with
  | none =>
      ({ s with log := s.log ++ ["error: cannot process event, order not found"] },
       .ok ())
  | some order =>
    match order.apply event with
    | .error msg => (s, .error msg)
    | .ok order =>
      let s := { s with db := (s.db.cacheOrder order).updateOrder order }
      match DbState.alistGet s.db.index_order_strategy event.order_id with
      | none =>
          ({ s with log := s.log ++ ["error: cannot process event, strategy not found"] },
           .ok ())
      | some strategy_id =>
        match event.kind with
        | .fill _ _ _ _ _ => handleOrderFill s event strategy_id
        | _ => (sendToStrategy s (.order event) strategy_id, .ok ())

/-- Source `_handle_account_event(event)`. -/
def handleAccountEvent (s : Engine) (event : AccountStateEvent) : Engine :=
  if ¬ s.account.initialized ∨ s.account.id = some event.account_id then
    { s with
      account := s.account.applyEvent event
      -- `database.update_account` is a no-op for the in-memory variant
      portfolio_transactions := s.portfolio_transactions ++ [event] }
  else
    { s with log := s.log ++ ["warning: cannot process event, not for this account"] }

/-- Source `handle_event(event)` / `_handle_event(event)`: increment
`event_count`, then dispatch by event type. -/
def handleEvent (s : Engine) (event : EngineEvent) :
    Engine × Except String Unit :=
  let s := { s with event_count := s.event_count + 1 }
  match event with
  | .order e => handleOrderEvent s e
  | .position e => (handlePositionEvent s e, .ok ())
  | .account e => (handleAccountEvent s e, .ok ())

/-- Source `ExecutionEngine.reset()`: the engine's public reset calls only
`self.database.reset()` (the private `_reset` that would clear the
counters and registered strategies is not invoked by it). -/
def reset (s : Engine) : Engine :=
  { s with db := s.db.reset }

end Engine

/-! ## AtomicOrder and OrderFactory (order.pyx) -/

/-- Source `AtomicOrder`: entry order, stop-loss child, optional take-profit
child; its identifier is `'A' + entry.id.value`. -/
structure AtomicOrder where
  id : String
  entry : Order
  stop_loss : Order
  take_profit : Option Order
  has_take_profit : Bool
  timestamp : ℕ
deriving DecidableEq

/-- Source `AtomicOrder.__init__`. -/
def AtomicOrder.make (entry : Order) (stop_loss : Order)
    (take_profit : Option Order := none) : AtomicOrder :=
  { id := "A" ++ entry.id
    entry := entry
    stop_loss := stop_loss
    take_profit := take_profit
    has_take_profit := take_profit.isSome
    timestamp := entry.timestamp }

/-- Source `OrderFactory` state: the trader/strategy identifier tags, the
internal `OrderIdGenerator` count, a guid counter, and the clock's
current time. -/
structure OrderFactory where
  id_tag_trader : String
  id_tag_strategy : String
  count : ℕ
  guid_count : ℕ
  time : ℕ
deriving DecidableEq, Repr

namespace OrderFactory

/-- Modelled from the spec: `OrderIdGenerator.generate()` (the generators
module is absent from src/) — "an internal counter supplies monotonic
order identifiers scoped by `(trader_tag, strategy_tag)`".  The exact
identifier format is immaterial to the claims. -/
def generateId (f : OrderFactory) : String × OrderFactory :=
  ("O-" ++ f.id_tag_trader ++ "-" ++ f.id_tag_strategy ++ "-" ++ toString (f.count + 1),
   { f with count := f.count + 1 })

/-- Modelled from the spec: `GuidFactory.generate()` (the guid module is
absent from src/); an opaque fresh identifier. -/
def generateGuid (f : OrderFactory) : String × OrderFactory :=
  ("G-" ++ toString (f.guid_count + 1), { f with guid_count := f.guid_count + 1 })

/-- Source `OrderFactory.market`: a MARKET order with `TimeInForce.DAY` and no
price or expire time. -/
def market (f : OrderFactory) (symbol : String) (order_side : OrderSide)
    (quantity : ℕ) (label : Option String := none)
    (order_purpose : OrderPurpose := .NONE) :
    Except String (Order × OrderFactory) := do
  let (order_id, f) := f.generateId
  let (guid, f) := f.generateGuid
  let o ← Order.init order_id symbol order_side .MARKET quantity guid f.time
    none label order_purpose .DAY none
  .ok (o, f)

/-- Source `OrderFactory.limit`. -/
def limit (f : OrderFactory) (symbol : String) (order_side : OrderSide)
    (quantity : ℕ) (price : ℚ) (label : Option String := none)
    (order_purpose : OrderPurpose := .NONE)
    (time_in_force : TimeInForce := .DAY) (expire_time : Option ℕ := none) :
    Except String (Order × OrderFactory) := do
  let (order_id, f) := f.generateId
  let (guid, f) := f.generateGuid
  let o ← Order.init order_id symbol order_side .LIMIT quantity guid f.time
    (some price) label order_purpose time_in_force expire_time
  .ok (o, f)

/-- Source `OrderFactory.stop_market`. -/
def stopMarket (f : OrderFactory) (symbol : String) (order_side : OrderSide)
    (quantity : ℕ) (price : ℚ) (label : Option String := none)
    (order_purpose : OrderPurpose := .NONE)
    (time_in_force : TimeInForce := .DAY) (expire_time : Option ℕ := none) :
    Except String (Order × OrderFactory) := do
  let (order_id, f) := f.generateId
  let (guid, f) := f.generateGuid
  let o ← Order.init order_id symbol order_side .STOP_MARKET quantity guid f.time
    (some price) label order_purpose time_in_force expire_time
  .ok (o, f)

/-- Source `OrderFactory._create_atomic_order(entry, price_stop_loss,
price_take_profit, original_label)`: the child side is opposite to the
entry's, the stop-loss is a STOP_MARKET GTC order with the entry's
quantity and label `original_label + "_SL"`, the optional take-profit a
LIMIT GTC order with label `original_label + "_TP"`. -/
def createAtomicOrder (f : OrderFactory) (entry : Order)
    (price_stop_loss : ℚ) (price_take_profit : Option ℚ)
    (original_label : Option String) :
    Except String (AtomicOrder × OrderFactory) := do
  let child_order_side : OrderSide :=
    if entry.side = .SELL then .BUY else .SELL
  let label_stop_loss := original_label.map (fun l => l ++ "_SL")
  let label_take_profit := original_label.map (fun l => l ++ "_TP")
  let (stop_loss, f) ← f.stopMarket entry.symbol child_order_side entry.quantity
    price_stop_loss label_stop_loss .STOP_LOSS .GTC none
  match price_take_profit with
  | some price_tp =>
      let (take_profit, f) ← f.limit entry.symbol child_order_side entry.quantity
        price_tp label_take_profit .TAKE_PROFIT .GTC none
      .ok (AtomicOrder.make entry stop_loss (some take_profit), f)
  | none =>
      .ok (AtomicOrder.make entry stop_loss none, f)

/-- Source `OrderFactory.atomic_market`: builds the entry with label
`label + "_E"` (this method passes the derived `entry_label` to the entry
order). -/
def atomicMarket (f : OrderFactory) (symbol : String) (order_side : OrderSide)
    (quantity : ℕ) (price_stop_loss : ℚ) (price_take_profit : Option ℚ := none)
    (label : Option String := none) :
    Except String (AtomicOrder × OrderFactory) := do
  let entry_label := label.map (fun l => l ++ "_E")
  let (entry_order, f) ← f.market symbol order_side quantity entry_label .ENTRY
  f.createAtomicOrder entry_order price_stop_loss price_take_profit label

/-- Source `OrderFactory.atomic_limit`: the source computes
`entry_label = label + "_E"` but then passes the original `label` (not
`entry_label`) to `self.limit` when building the entry order; the unused
computation is reproduced here as `_entry_label`. -/
def atomicLimit (f : OrderFactory) (symbol : String) (order_side : OrderSide)
    (quantity : ℕ) (price_entry : ℚ) (price_stop_loss : ℚ)
    (price_take_profit : Option ℚ := none) (label : Option String := none)
    (time_in_force : TimeInForce := .DAY) (expire_time : Option ℕ := none) :
    Except String (AtomicOrder × OrderFactory) := do
  let _entry_label := label.map (fun l => l ++ "_E")
  let (entry_order, f) ← f.limit symbol order_side quantity price_entry
    label .ENTRY time_in_force expire_time
  f.createAtomicOrder entry_order price_stop_loss price_take_profit label

/-- Source `OrderFactory.atomic_stop_market`: like `atomic_limit`, the computed
`entry_label` is unused and the original `label` is passed to
`self.stop_market` for the entry order. -/
def atomicStopMarket (f : OrderFactory) (symbol : String)
    (order_side : OrderSide) (quantity : ℕ) (price_entry : ℚ)
    (price_stop_loss : ℚ) (price_take_profit : Option ℚ := none)
    (label : Option String := none) (time_in_force : TimeInForce := .DAY)
    (expire_time : Option ℕ := none) :
    Except String (AtomicOrder × OrderFactory) := do
  let _entry_label := label.map (fun l => l ++ "_E")
  let (entry_order, f) ← f.stopMarket symbol order_side quantity price_entry
    label .ENTRY time_in_force expire_time
  f.createAtomicOrder entry_order price_stop_loss price_take_profit label

end OrderFactory

/-! ## Concrete inputs shared by the theorems -/

/-- A placeholder event, used only as an `Option.getD` fallback in
concrete computations (never reached when the computation succeeds). -/
def fallbackEvent : OrderEvent :=
  { order_id := "", account_id := "", timestamp := 0, kind := .initialized }

/-- A placeholder order, used only as an `Option.getD` fallback in
concrete computations (never reached when the computation succeeds). -/
def fallbackOrder : Order :=
  { id := "", id_broker := none, account_id := none, position_id_broker := none
    execution_id := none, symbol := "", side := .BUY, type := .MARKET
    quantity := 1, timestamp := 0, price := none, label := none
    purpose := .NONE, time_in_force := .DAY, expire_time := none
    filled_quantity := 0, filled_timestamp := none, average_price := none
    slippage := 0, state := .INITIALIZED, init_id := "", is_buy := true
    is_sell := false, is_working := false, is_completed := false
    execution_ids := ∅, events := [], last_event := fallbackEvent
    event_count := 1 }

/-! ## C1: fill sub-states versus the working/completed flags -/

/-- Source `Order.apply` preserves the invariant that a `FILLED` order has
`is_completed = true` (the fill branch explicitly completes exactly the
`FILLED` sub-state; every other branch either sets a non-FILLED state or
leaves both the state and the flag unchanged). -/
lemma Order.apply_filled_completed {o o' : Order} {e : OrderEvent}
    (inv : o.state = .FILLED → o.is_completed = true)
    (h : o.apply e = .ok o') :
    o'.state = .FILLED → o'.is_completed = true := by
  unfold Order.apply at h
  split at h
  · exact absurd h (by simp)
  split at h
  · exact absurd h (by simp)
  unfold Order.apply.applyUnchecked at h
  rcases e with ⟨oid, aid, ts, kind⟩
  cases kind with
  | fill eid pb side filled avg =>
      dsimp only at h
      split at h <;>
        (injection h with h; subst h;
         simp_all [Order.setIsCompletedTrue, Order.setFilledState,
           Order.setSlippage])
  | _ =>
      dsimp only at h
      injection h with h
      subst h
      simp_all [Order.setIsCompletedTrue, Order.setIsWorkingTrue]

/-- The invariant of `Order.apply_filled_completed`, extended along a
sequence of successfully applied events. -/
lemma Order.applyList_filled_completed {o o' : Order} {events : List OrderEvent}
    (inv : o.state = .FILLED → o.is_completed = true)
    (h : o.applyList events = .ok o') :
    o'.state = .FILLED → o'.is_completed = true := by
  induction events generalizing o with
  | nil =>
      simp only [Order.applyList, List.foldlM_nil] at h
      injection h with h; subst h; exact inv
  | cons e rest ih =>
      simp only [Order.applyList, List.foldlM_cons] at h
      cases happ : o.apply e with
      | error msg => rw [happ] at h; exact Except.noConfusion h
      | ok o1 =>
          rw [happ] at h
          exact ih (Order.apply_filled_completed inv happ) h

/-- A fill that disagrees with the order's quantity leaves both lifecycle
flags untouched: only the `FILLED` sub-state calls
`_set_is_completed_true`. -/
lemma Order.apply_fill_flags {o o' : Order} {e : OrderEvent}
    {eid pb : String} {side : OrderSide} {filled : ℕ} {avg : ℚ}
    (hk : e.kind = .fill eid pb side filled avg)
    (hne : filled ≠ o.quantity)
    (h : o.apply e = .ok o') :
    o'.state = (if filled < o.quantity then OrderState.PARTIALLY_FILLED
                else OrderState.OVER_FILLED) ∧
    o'.is_completed = o.is_completed ∧ o'.is_working = o.is_working := by
  unfold Order.apply at h
  split at h
  · exact absurd h (by simp)
  split at h
  · exact absurd h (by simp)
  unfold Order.apply.applyUnchecked at h
  rcases e with ⟨oid, aid, ts, kind⟩
  simp only at hk
  subst hk
  dsimp only at h
  rw [Order.setFilledState, Order.setSlippage] at h
  dsimp only at h
  rw [Order.filledStateOf] at h
  dsimp only at h
  by_cases hlt : filled < o.quantity
  · simp only [hlt, if_true, reduceCtorEq, reduceIte] at h
    injection h with h; subst h
    simp [hlt]
  · simp only [hlt, if_false, hne, reduceCtorEq, reduceIte] at h
    injection h with h; subst h
    simp [hlt]

/-- The order for the C1 computations: a MARKET BUY of quantity 1. -/
def c1order : Order :=
  (Order.init "O-1" "AUDUSD" .BUY .MARKET 1 "G-1" 0).toOption.getD fallbackOrder

/-- A fill of quantity 2 against `c1order` (an over-fill). -/
def c1fill : OrderEvent :=
  { order_id := "O-1", account_id := "ACC-1", timestamp := 3
    kind := .fill "E-1" "PB-1" .BUY 2 100 }

/-- The value `c1order` after the over-fill. -/
def c1over : Order := (c1order.apply c1fill).toOption.getD fallbackOrder

/-- A second order of quantity 2, and a partial fill of quantity 1. -/
def c1order2 : Order :=
  (Order.init "O-2" "AUDUSD" .BUY .MARKET 2 "G-2" 0).toOption.getD fallbackOrder

/-- A partial fill of quantity 1 against `c1order2`. -/
def c1fill2 : OrderEvent :=
  { order_id := "O-2", account_id := "ACC-1", timestamp := 3
    kind := .fill "E-2" "PB-1" .BUY 1 100 }

/-- The value `c1order2` after the partial fill. -/
def c1partialFill : Order := (c1order2.apply c1fill2).toOption.getD fallbackOrder

/-- C1, counterexample: applying an `OrderFillEvent` whose
`filled_quantity` (2) exceeds the order's quantity (1) puts the order into
state `OVER_FILLED` with `is_completed` still `false` — `Order.apply`
completes only the `FILLED` sub-state, contradicting the claim that an
`OVER_FILLED` order has `is_completed = true`. -/
theorem claim_C1_counterexample :
    c1order.apply c1fill = .ok c1over ∧
    c1over.state = .OVER_FILLED ∧
    c1over.is_completed = false ∧
    c1over.is_working = false := by
  refine ⟨rfl, by decide, by decide, by decide⟩

/-- C1 (amended): for every sequence of successfully applied order events,
whenever the state is `FILLED` the `is_completed` flag is true; a fill
whose `filled_quantity` differs from the order's quantity sets state
`OVER_FILLED` (when greater) or `PARTIALLY_FILLED` (when smaller) and
leaves both `is_working` and `is_completed` unchanged — so `OVER_FILLED`
does not imply `is_completed`, and `PARTIALLY_FILLED` implies `is_working`
only when the order was already working before the fill. -/
theorem claim_C1 :
    (∀ (o o' : Order) (events : List OrderEvent),
        (o.state = .FILLED → o.is_completed = true) →
        o.applyList events = .ok o' →
        (o'.state = .FILLED → o'.is_completed = true)) ∧
    (∀ (o o' : Order) (e : OrderEvent) (eid pb : String) (side : OrderSide)
        (filled : ℕ) (avg : ℚ),
        e.kind = .fill eid pb side filled avg →
        o.quantity < filled →
        o.apply e = .ok o' →
        o'.state = .OVER_FILLED ∧ o'.is_completed = o.is_completed ∧
          o'.is_working = o.is_working) ∧
    (∀ (o o' : Order) (e : OrderEvent) (eid pb : String) (side : OrderSide)
        (filled : ℕ) (avg : ℚ),
        e.kind = .fill eid pb side filled avg →
        filled < o.quantity →
        o.apply e = .ok o' →
        o'.state = .PARTIALLY_FILLED ∧ o'.is_completed = o.is_completed ∧
          o'.is_working = o.is_working) := by
  refine ⟨fun o o' events inv h => Order.applyList_filled_completed inv h,
    fun o o' e eid pb side filled avg hk hgt h => ?_,
    fun o o' e eid pb side filled avg hk hlt h => ?_⟩
  · have := Order.apply_fill_flags hk (by omega) h
    rwa [if_neg (by omega)] at this
  · have := Order.apply_fill_flags hk (by omega) h
    rwa [if_pos hlt] at this

/-- C1, witness: the amended theorem instantiated at the concrete orders
and fills above. -/
theorem claim_C1_witness :
    ((c1over.state = .FILLED → c1over.is_completed = true) ∧
      (c1over.state = .OVER_FILLED ∧ c1over.is_completed = c1order.is_completed ∧
        c1over.is_working = c1order.is_working) ∧
      (c1partialFill.state = .PARTIALLY_FILLED ∧
        c1partialFill.is_completed = c1order2.is_completed ∧
        c1partialFill.is_working = c1order2.is_working)) := by
  refine ⟨?_, ?_, ?_⟩
  · exact claim_C1.1 c1order c1over [c1fill] (by decide) rfl
  · exact claim_C1.2.1 c1order c1over c1fill "E-1" "PB-1" .BUY 2 100
      rfl (by decide) rfl
  · exact claim_C1.2.2 c1order2 c1partialFill c1fill2 "E-2" "PB-1" .BUY 1 100
      rfl (by decide) rfl

/-- A successfully applied fill writes exactly the event's values into the
fill-derived fields, for an arbitrary starting order. -/
lemma Order.apply_fill_fields {o o' : Order} {e : OrderEvent}
    {eid pb : String} {side : OrderSide} {filled : ℕ} {avg : ℚ}
    (hk : e.kind = .fill eid pb side filled avg)
    (h : o.apply e = .ok o') :
    o'.filled_quantity = filled ∧
    o'.average_price = some avg ∧
    o'.filled_timestamp = some e.timestamp ∧
    o'.execution_id = some eid ∧
    o'.position_id_broker = some pb ∧
    o'.execution_ids = insert eid o.execution_ids := by
  unfold Order.apply at h
  split at h
  · exact absurd h (by simp)
  split at h
  · exact absurd h (by simp)
  unfold Order.apply.applyUnchecked at h
  rcases e with ⟨oid, aid, ts, kind⟩
  simp only at hk
  subst hk
  dsimp only at h
  split at h <;>
    (injection h with h; subst h;
     simp [Order.setIsCompletedTrue, Order.setFilledState, Order.setSlippage])

/-- A successfully applied fill of exactly the order's quantity puts the
order into `FILLED` with `is_completed = true` and the event's average
price. -/
lemma Order.apply_fill_exact {o o' : Order} {e : OrderEvent}
    {eid pb : String} {side : OrderSide} {avg : ℚ}
    (hk : e.kind = .fill eid pb side o.quantity avg)
    (h : o.apply e = .ok o') :
    o'.state = .FILLED ∧ o'.is_completed = true ∧
    o'.average_price = some avg := by
  unfold Order.apply at h
  split at h
  · exact absurd h (by simp)
  split at h
  · exact absurd h (by simp)
  unfold Order.apply.applyUnchecked at h
  rcases e with ⟨oid, aid, ts, kind⟩
  simp only at hk
  subst hk
  dsimp only at h
  rw [Order.setFilledState, Order.setSlippage] at h
  dsimp only at h
  rw [Order.filledStateOf] at h
  simp only [lt_self_iff_false, if_false, if_true, reduceIte] at h
  injection h with h; subst h
  simp [Order.setIsCompletedTrue]

/-- The fields written by the last fill of a successfully applied event
sequence are exactly that event's values. -/
lemma Order.applyList_last_fill {o o' : Order} {events : List OrderEvent}
    {e : OrderEvent} {eid pb : String} {side : OrderSide} {filled : ℕ}
    {avg : ℚ}
    (hk : e.kind = .fill eid pb side filled avg)
    (h : o.applyList (events ++ [e]) = .ok o') :
    o'.filled_quantity = filled ∧ o'.average_price = some avg := by
  rw [Order.applyList, List.foldlM_append] at h
  cases hfst : List.foldlM Order.apply o events with
  | error msg => rw [hfst] at h; exact Except.noConfusion h
  | ok o1 =>
      rw [hfst] at h
      replace h : (o1.apply e >>= pure) = Except.ok o' := h
      cases happ : o1.apply e with
      | error msg => rw [happ] at h; exact Except.noConfusion h
      | ok o2 =>
          rw [happ] at h
          replace h : Except.ok o2 = Except.ok o' := h
          injection h with h
          subst h
          have := Order.apply_fill_fields hk happ
          exact ⟨this.1, this.2.1⟩

/-! ## C9: fills overwrite the fill-derived fields with the event's values -/

/-- C9: `Order.apply` on an `OrderFillEvent` sets `filled_quantity`,
`average_price`, `filled_timestamp`, `execution_id` and
`position_id_broker` to exactly the event's values — the starting order
`o` is arbitrary, so values from previously applied fills are overwritten,
not accumulated — and inserts the event's `execution_id` into the order's
execution-id set. -/
theorem claim_C9 :
    ∀ (o o' : Order) (e : OrderEvent) (eid pb : String) (side : OrderSide)
      (filled : ℕ) (avg : ℚ),
      e.kind = .fill eid pb side filled avg →
      o.apply e = .ok o' →
      o'.filled_quantity = filled ∧
      o'.average_price = some avg ∧
      o'.filled_timestamp = some e.timestamp ∧
      o'.execution_id = some eid ∧
      o'.position_id_broker = some pb ∧
      o'.execution_ids = insert eid o.execution_ids :=
  fun _ _ _ _ _ _ _ _ hk h => Order.apply_fill_fields hk h

/-- C9, witness: the theorem instantiated at the concrete over-fill of
`c1order` by `c1fill`. -/
theorem claim_C9_witness :
    c1over.filled_quantity = 2 ∧ c1over.average_price = some 100 ∧
    c1over.filled_timestamp = some 3 ∧ c1over.execution_id = some "E-1" ∧
    c1over.position_id_broker = some "PB-1" ∧
    c1over.execution_ids = insert "E-1" c1order.execution_ids :=
  claim_C9 c1order c1over c1fill "E-1" "PB-1" .BUY 2 100 rfl rfl

/-! ## C2: fill partitioning -/

/-- Scenario B's order: a LIMIT SELL of 100 at 150.00. -/
def c2order : Order :=
  (Order.init "O-3" "AAPL" .SELL .LIMIT 100 "G-3" 0
    (some 150)).toOption.getD fallbackOrder

/-- An incremental fill of 40 at 150.10. -/
def c2fillA : OrderEvent :=
  { order_id := "O-3", account_id := "ACC-1", timestamp := 1
    kind := .fill "E-3A" "PB-1" .SELL 40 (1501/10 : ℚ) }

/-- An incremental fill of 60 at 150.20. -/
def c2fillB : OrderEvent :=
  { order_id := "O-3", account_id := "ACC-1", timestamp := 2
    kind := .fill "E-3B" "PB-1" .SELL 60 (1502/10 : ℚ) }

/-- The second fill in broker-cumulative form: cumulative quantity 100
at the cumulative volume-weighted average price 150.16. -/
def c2fillCum : OrderEvent :=
  { order_id := "O-3", account_id := "ACC-1", timestamp := 2
    kind := .fill "E-3B" "PB-1" .SELL 100 (15016/100 : ℚ) }

/-- A single fill of the entire quantity 100 at 150.00. -/
def c2fillFull : OrderEvent :=
  { order_id := "O-3", account_id := "ACC-1", timestamp := 1
    kind := .fill "E-3F" "PB-1" .SELL 100 (150 : ℚ) }

/-- The value `c2order` after the two incremental fills. -/
def c2incremental : Order :=
  (c2order.applyList [c2fillA, c2fillB]).toOption.getD fallbackOrder

/-- The value `c2order` after the cumulative fill sequence. -/
def c2cumulative : Order :=
  (c2order.applyList [c2fillA, c2fillCum]).toOption.getD fallbackOrder

/-- The value `c2order` after the single full fill. -/
def c2full : Order :=
  (c2order.apply c2fillFull).toOption.getD fallbackOrder

/-- C2, counterexample: splitting the quantity 100 into fill events of 40
at 150.10 and 60 at 150.20 (as the claim's example does) does not end in
`FILLED` with the volume-weighted average 150.16 — `Order.apply`
overwrites `filled_quantity` and `average_price` with each event's
values, so the sequence ends `PARTIALLY_FILLED` with
`average_price = 150.20`. -/
theorem claim_C2_counterexample :
    c2order.quantity = 40 + 60 ∧
    c2order.applyList [c2fillA, c2fillB] = .ok c2incremental ∧
    c2incremental.state = .PARTIALLY_FILLED ∧
    c2incremental.state ≠ .FILLED ∧
    c2incremental.average_price = some (1502/10 : ℚ) ∧
    (40 * (1501/10 : ℚ) + 60 * (1502/10)) / 100 = (15016/100 : ℚ) ∧
    c2incremental.average_price ≠ some (15016/100 : ℚ) := by
  refine ⟨by decide, rfl, by decide, by decide, rfl, by norm_num, ?_⟩
  have h : c2incremental.average_price = some (1502/10 : ℚ) := rfl
  simp only [h, ne_eq, Option.some.injEq]
  norm_num

/-- C2 (amended): applying a single `OrderFillEvent` with
`filled_quantity` equal to the order's quantity puts the order into
`FILLED` with the event's average price.  `Order.apply` overwrites the
fill-derived fields, so after any successfully applied sequence ending in
a fill, `filled_quantity` and `average_price` are exactly the last
event's values: a split of the same total quantity ends in `FILLED` with
`average_price` equal to the volume-weighted average precisely when the
fill events carry broker-cumulative quantities and averages whose last
event is `(Q, VWAP)` — for the LIMIT SELL 100 example, cumulative fills
(40 @ 150.10) then (100 @ 150.16) end `FILLED` with
`average_price = 150.16 = (40·150.10 + 60·150.20)/100`. -/
theorem claim_C2 :
    (∀ (o o' : Order) (e : OrderEvent) (eid pb : String) (side : OrderSide)
        (avg : ℚ),
        e.kind = .fill eid pb side o.quantity avg →
        o.apply e = .ok o' →
        o'.state = .FILLED ∧ o'.is_completed = true ∧
          o'.average_price = some avg) ∧
    (∀ (o o' : Order) (events : List OrderEvent) (e : OrderEvent)
        (eid pb : String) (side : OrderSide) (filled : ℕ) (avg : ℚ),
        e.kind = .fill eid pb side filled avg →
        o.applyList (events ++ [e]) = .ok o' →
        o'.filled_quantity = filled ∧ o'.average_price = some avg) ∧
    (c2order.applyList [c2fillA, c2fillCum] = .ok c2cumulative ∧
      c2cumulative.state = .FILLED ∧ c2cumulative.is_completed = true ∧
      c2cumulative.average_price =
        some ((40 * (1501/10 : ℚ) + 60 * (1502/10)) / 100)) := by
  refine ⟨fun o o' e eid pb side avg hk h => Order.apply_fill_exact hk h,
    fun o o' events e eid pb side filled avg hk h =>
      Order.applyList_last_fill hk h,
    rfl, by decide, by decide, ?_⟩
  have h : c2cumulative.average_price = some (15016/100 : ℚ) := rfl
  rw [h]
  congr 1
  norm_num

/-- C2, witness: the amended theorem instantiated at the concrete single
full fill and at the incremental pair of fills. -/
theorem claim_C2_witness :
    (c2full.state = .FILLED ∧ c2full.is_completed = true ∧
      c2full.average_price = some (150 : ℚ)) ∧
    (c2incremental.filled_quantity = 60 ∧
      c2incremental.average_price = some (1502/10 : ℚ)) := by
  refine ⟨?_, ?_⟩
  · exact claim_C2.1 c2order c2full c2fillFull "E-3F" "PB-1" .SELL 150 rfl rfl
  · exact claim_C2.2.1 c2order c2incremental [c2fillA] c2fillB "E-3B" "PB-1"
      .SELL 60 (1502/10 : ℚ) rfl rfl

/-! ## C5: constructor validation -/

/-- A GTD LIMIT order whose `expire_time` (0) is strictly before its
`timestamp` (5). -/
def c5pastGTD : Except String Order :=
  Order.init "O-5" "AAPL" .BUY .LIMIT 10 "G-5" 5 (some 100) none .NONE
    .GTD (some 0)

/-- C5, counterexample: `Order.__init__` performs no check that a GTD
order's `expire_time` lies in the future relative to its `timestamp` —
construction succeeds with `expire_time = 0` strictly before
`timestamp = 5`, refuting the claim's "additionally required to be in the
future" clause. -/
theorem claim_C5_counterexample :
    c5pastGTD.toOption.isSome = true ∧ (0 : ℕ) < 5 := by
  exact ⟨by decide, by decide⟩

/-- C5 (amended): order construction succeeds exactly when the enum
arguments are defined, the quantity is strictly positive, a price is
present iff the order type is priced (LIMIT, STOP_MARKET, STOP_LIMIT,
MIT), and a GTD order carries an `expire_time`; no futurity requirement
is imposed on `expire_time` (the construction of `c5pastGTD` above
succeeds with a past expire time). -/
theorem claim_C5 :
    ∀ (order_id symbol : String) (side : OrderSide) (otype : OrderType)
      (qty : ℕ) (gid : String) (ts : ℕ) (price : Option ℚ)
      (label : Option String) (purpose : OrderPurpose) (tif : TimeInForce)
      (expire : Option ℕ),
      (Order.init order_id symbol side otype qty gid ts price label purpose
        tif expire).toOption.isSome = true ↔
      (side ≠ .UNDEFINED ∧ otype ≠ .UNDEFINED ∧ purpose ≠ .UNDEFINED ∧
        tif ≠ .UNDEFINED ∧ 0 < qty ∧
        (price.isSome = true ↔ otype.isPriced = true) ∧
        (tif = .GTD → expire.isSome = true)) := by
  intro order_id symbol side otype qty gid ts price label purpose tif expire
  unfold Order.init
  split_ifs with h1 h2 h3 h4 h5 h6 h7 h8 <;>
    simp_all [Option.isSome_iff_ne_none, Except.toOption] <;>
    first
    | tauto
    | (cases hb : otype.isPriced <;> simp_all [Except.toOption])

/-! ## C4: atomic order construction -/

/-- A placeholder atomic order, used only as an `Option.getD` fallback. -/
def fallbackAtomic : AtomicOrder := AtomicOrder.make fallbackOrder fallbackOrder none

/-- A fresh factory for the C4 computations. -/
def c4factory : OrderFactory :=
  { id_tag_trader := "T1", id_tag_strategy := "S1", count := 0
    guid_count := 0, time := 0 }

/-- The atomic order built by `atomic_limit` with label "X": BUY 100,
entry at 1, stop-loss at 9/10, take-profit at 11/10. -/
def c4atomicLimit : AtomicOrder :=
  ((c4factory.atomicLimit "AUDUSD" .BUY 100 1 (9/10) (some (11/10))
    (some "X")).toOption.map Prod.fst).getD fallbackAtomic

/-- The take-profit child of `c4atomicLimit`. -/
def c4tp : Order := c4atomicLimit.take_profit.getD fallbackOrder

/-- The atomic order built by `atomic_market` with the same label. -/
def c4atomicMarket : AtomicOrder :=
  ((c4factory.atomicMarket "AUDUSD" .BUY 100 (9/10) (some (11/10))
    (some "X")).toOption.map Prod.fst).getD fallbackAtomic

/-- C4: evaluation at the failing input.  For `atomic_limit` with label
"X" the entry order's label is `"X"`, not `"X_E"` — the source computes
`entry_label = label + "_E"` but passes the original `label` to the entry
order (`atomic_market`, by contrast, passes the derived `"X_E"`,
witnessing the intent).  Every other property of the claim holds: the
stop-loss is a STOP_MARKET and the take-profit a LIMIT order, both with
side opposite to the entry, the entry's quantity, time-in-force GTC and
labels `"X_SL"` / `"X_TP"`, and the atomic order's identifier is
`"A" + entry.id`. -/
theorem claim_C4 :
    c4atomicLimit.entry.label = some "X" ∧
    c4atomicLimit.entry.label ≠ some "X_E" ∧
    c4atomicMarket.entry.label = some "X_E" ∧
    c4atomicLimit.entry.side = .BUY ∧
    c4atomicLimit.stop_loss.type = .STOP_MARKET ∧
    c4atomicLimit.stop_loss.side = .SELL ∧
    c4atomicLimit.stop_loss.quantity = c4atomicLimit.entry.quantity ∧
    c4atomicLimit.stop_loss.time_in_force = .GTC ∧
    c4atomicLimit.stop_loss.label = some "X_SL" ∧
    c4tp.type = .LIMIT ∧
    c4tp.side = .SELL ∧
    c4tp.quantity = c4atomicLimit.entry.quantity ∧
    c4tp.time_in_force = .GTC ∧
    c4tp.label = some "X_TP" ∧
    c4atomicLimit.id = "A" ++ c4atomicLimit.entry.id := by
  refine ⟨by decide, by decide, by decide, by decide, by decide, by decide,
    by decide, by decide, by decide, by decide, by decide, by decide,
    by decide, by decide, by decide⟩

/-! ## C3: `advance_time` and the clock's current time -/

/-- A test clock at the epoch with no timers. -/
def c3clock : TestClock := TestClock.init 0

/-- A test clock with one repeating timer of interval 5 (next event at
t = 5). -/
def c3timerClock : TestClock :=
  ((TestClock.init 0).setTimer "T" 5).getD (TestClock.init 0)

/-- C3, counterexample: with no timers, `advance_time(10)` returns the
empty list and leaves the clock's time at 0 even though 10 differs from
the current time — the early return skips the `self._time = to_time`
assignment, refuting "returning with the clock time unchanged is
permitted only when t equals the current time". -/
theorem claim_C3_counterexample :
    c3clock.time = 0 ∧
    c3clock.timer_count = 0 ∧
    (c3clock.advanceTime 10).1 = [] ∧
    (c3clock.advanceTime 10).2.time = 0 ∧
    (10 : ℕ) ≠ 0 := by
  refine ⟨by decide, by decide, by decide, by decide, by decide⟩

/-- C3 (amended): `advance_time(t)` sets the clock's time to `t` exactly
when at least one timer exists and `t ≥ next_event_time`; when there are
no timers, or `t < next_event_time`, it returns the empty list and leaves
the whole clock — its current time included — unchanged, even when `t`
differs from the current time. -/
theorem claim_C3 :
    (∀ (c : TestClock) (t : ℕ), c.timer_count = 0 →
        c.advanceTime t = ([], c)) ∧
    (∀ (c : TestClock) (t nt : ℕ), c.next_event_time = some nt → t < nt →
        c.advanceTime t = ([], c)) ∧
    (∀ (c : TestClock) (t nt : ℕ), c.timer_count ≠ 0 →
        c.next_event_time = some nt → nt ≤ t →
        (c.advanceTime t).2.time = t) := by
  refine ⟨fun c t h => ?_, fun c t nt hnt hlt => ?_, fun c t nt h0 hnt hle => ?_⟩
  · simp [TestClock.advanceTime, h]
  · by_cases h0 : c.timer_count = 0
    · simp [TestClock.advanceTime, h0]
    · simp [TestClock.advanceTime, h0, hnt, hlt]
  · simp [TestClock.advanceTime, h0, hnt, Nat.not_lt.mpr hle]

/-- C3, witness: the amended theorem instantiated at the concrete clocks
above (no timers at t = 10; one timer with next event at 5, advanced to 3
and then to 7). -/
theorem claim_C3_witness :
    c3clock.advanceTime 10 = ([], c3clock) ∧
    c3timerClock.advanceTime 3 = ([], c3timerClock) ∧
    (c3timerClock.advanceTime 7).2.time = 7 := by
  refine ⟨claim_C3.1 c3clock 10 (by decide),
    claim_C3.2.1 c3timerClock 3 5 (by decide) (by decide),
    claim_C3.2.2 c3timerClock 7 5 (by decide) (by decide) (by decide)⟩

/-! ## C8: the test-clock advance scenario -/

/-- The timestamp of a bundled time event. -/
def tsOf (h : TimeEventHandler) : ℕ := h.event.timestamp

/-- Scenario E's clock, registrations in the scenario's order: the alert
at t = 10 first, then the repeating timer of interval 3 stopping at 9. -/
def c8clock : TestClock :=
  (((TestClock.init 0).setTimeAlert "alert" 10).bind
    (fun c => c.setTimer "timer" 3 none (some 9))).getD (TestClock.init 0)

/-- The result of `advance_time(10)` on `c8clock`. -/
def c8run : List TimeEventHandler × TestClock := c8clock.advanceTime 10

/-- The same clock with the registrations in the opposite order: the
repeating timer first, then the alert. -/
def c8clockTimerFirst : TestClock :=
  (((TestClock.init 0).setTimer "timer" 3 none (some 9)).bind
    (fun c => c.setTimeAlert "alert" 10)).getD (TestClock.init 0)

/-- The result of `advance_time(10)` on `c8clockTimerFirst`. -/
def c8runTimerFirst : List TimeEventHandler × TestClock :=
  c8clockTimerFirst.advanceTime 10

/-- C8, counterexample: with the alert registered before the timer (the
order stated by the scenario), `advance_time(10)` returns the events with
timestamps 10, 3, 6, 9 — grouped per timer in registration order, not
globally ascending — refuting the claimed order 3, 6, 9, 10.  The clock's
time does become 10 and both timers are removed. -/
theorem claim_C8_counterexample :
    c8clock.timer_count = 2 ∧
    c8run.1.map tsOf = [10, 3, 6, 9] ∧
    c8run.1.map tsOf ≠ [3, 6, 9, 10] ∧
    c8run.2.time = 10 ∧
    c8run.2.timer_count = 0 := by
  refine ⟨by decide, by decide, by decide, by decide, by decide⟩

/-- C8 (amended): `advance_time(10)` returns the events grouped per timer
in registration order (each timer's own events in ascending time): with
the alert registered first the returned timestamps are 10, 3, 6, 9; with
the repeating timer registered first they are 3, 6, 9, 10.  In both cases
the clock's time becomes 10 and both the expired repeating timer and the
consumed alert are removed (`timer_count` becomes 0). -/
theorem claim_C8 :
    (c8run.1.map tsOf = [10, 3, 6, 9] ∧ c8run.2.time = 10 ∧
      c8run.2.timer_count = 0) ∧
    (c8runTimerFirst.1.map tsOf = [3, 6, 9, 10] ∧
      c8runTimerFirst.2.time = 10 ∧ c8runTimerFirst.2.timer_count = 0) := by
  refine ⟨⟨by decide, by decide, by decide⟩, by decide, by decide, by decide⟩

/-! ## C7: the working/completed partition invariant -/

/-- The database operations quantified over by the claim. -/
inductive DbOp where
  | addOrder (order : Order) (strategy_id : String) (position_id : String)
  | updateOrder (order : Order)

/-- Run a sequence of database operations from a state; a failing
`add_order` precondition aborts the run. -/
def runOps : DbState → List DbOp → Option DbState
  | db, [] => some db
  | db, .addOrder o sid pid :: rest =>
      match db.addOrder o sid pid with
      | none => none
      | some db' => runOps db' rest
  | db, .updateOrder o :: rest => runOps (db.updateOrder o) rest

/-- The claim's side condition: every `update_order` call refers to an
order previously added via `add_order` (`added` carries the ids added so
far). -/
def validOps (added : Finset String) : List DbOp → Bool
  | [] => true
  | .addOrder o _ _ :: rest => validOps (insert o.id added) rest
  | .updateOrder o :: rest => o.id ∈ added ∧ validOps added rest

/-- Source `update_order` preserves the partition invariant provided the order's
id is already indexed. -/
lemma DbState.updateOrder_inv {db : DbState} {o : Order}
    (hw : db.index_orders_working ⊆ db.index_orders)
    (hc : db.index_orders_completed ⊆ db.index_orders)
    (hd : Disjoint db.index_orders_working db.index_orders_completed)
    (hmem : o.id ∈ db.index_orders) :
    (db.updateOrder o).index_orders_working ⊆ (db.updateOrder o).index_orders ∧
    (db.updateOrder o).index_orders_completed ⊆ (db.updateOrder o).index_orders ∧
    Disjoint (db.updateOrder o).index_orders_working
      (db.updateOrder o).index_orders_completed := by
  unfold DbState.updateOrder
  split_ifs with h1 h2
  · refine ⟨Finset.insert_subset_iff.mpr ⟨hmem, hw⟩,
      (Finset.erase_subset _ _).trans hc, ?_⟩
    refine Finset.disjoint_left.mpr ?_
    intro a ha
    rcases Finset.mem_insert.mp ha with rfl | haw
    · exact Finset.not_mem_erase _ _
    · intro hac
      exact Finset.disjoint_left.mp hd haw (Finset.mem_of_mem_erase hac)
  · refine ⟨(Finset.erase_subset _ _).trans hw,
      Finset.insert_subset_iff.mpr ⟨hmem, hc⟩, ?_⟩
    refine Finset.disjoint_left.mpr ?_
    intro a ha hac
    have haw := Finset.mem_of_mem_erase ha
    rcases Finset.mem_insert.mp hac with rfl | hacc
    · exact (Finset.not_mem_erase _ _) ha
    · exact Finset.disjoint_left.mp hd haw hacc
  · exact ⟨hw, hc, hd⟩

/-- A successful `add_order` leaves the working/completed partitions
unchanged and inserts exactly the order's id into the order index. -/
lemma DbState.addOrder_inv {db db' : DbState} {o : Order} {sid pid : String}
    (h : db.addOrder o sid pid = some db') :
    db'.index_orders_working = db.index_orders_working ∧
    db'.index_orders_completed = db.index_orders_completed ∧
    db'.index_orders = insert o.id db.index_orders := by
  simp only [DbState.addOrder] at h
  split at h
  · exact absurd h (by simp)
  split at h
  · exact absurd h (by simp)
  split at h
  · exact absurd h (by simp)
  split at h
  · exact absurd h (by simp)
  split at h
  · injection h with h
    subst h
    unfold DbState.addOrder.addOrderTail
    exact ⟨rfl, rfl, rfl⟩
  · split at h
    · injection h with h
      subst h
      unfold DbState.addOrder.addOrderTail
      exact ⟨rfl, rfl, rfl⟩
    · exact absurd h (by simp)

/-- The partition invariant holds in every state reachable by a valid
operation sequence. -/
lemma runOps_inv {ops : List DbOp} :
    ∀ {db db' : DbState} {added : Finset String},
      validOps added ops = true →
      added ⊆ db.index_orders →
      db.index_orders_working ⊆ db.index_orders →
      db.index_orders_completed ⊆ db.index_orders →
      Disjoint db.index_orders_working db.index_orders_completed →
      runOps db ops = some db' →
      db'.index_orders_working ⊆ db'.index_orders ∧
      db'.index_orders_completed ⊆ db'.index_orders ∧
      Disjoint db'.index_orders_working db'.index_orders_completed := by
  induction ops with
  | nil =>
      intro db db' added _ _ hw hc hd hrun
      simp only [runOps] at hrun
      injection hrun with hrun
      subst hrun
      exact ⟨hw, hc, hd⟩
  | cons op rest ih =>
      intro db db' added hvalid hadded hw hc hd hrun
      cases op with
      | addOrder o sid pid =>
          simp only [runOps] at hrun
          cases hadd : db.addOrder o sid pid with
          | none => rw [hadd] at hrun; exact Option.noConfusion hrun
          | some db1 =>
              rw [hadd] at hrun
              obtain ⟨hw1, hc1, ho1⟩ := DbState.addOrder_inv hadd
              simp only [validOps] at hvalid
              refine ih hvalid ?_ ?_ ?_ ?_ hrun
              · rw [ho1]
                exact Finset.insert_subset_insert _ hadded
              · rw [hw1, ho1]
                exact hw.trans (Finset.subset_insert _ _)
              · rw [hc1, ho1]
                exact hc.trans (Finset.subset_insert _ _)
              · rw [hw1, hc1]
                exact hd
      | updateOrder o =>
          simp only [runOps] at hrun
          simp only [validOps, Bool.and_eq_true, decide_eq_true_eq] at hvalid
          obtain ⟨hmem, hvalid⟩ := hvalid
          obtain ⟨hw1, hc1, hd1⟩ :=
            DbState.updateOrder_inv hw hc hd (hadded hmem)
          have horders : (db.updateOrder o).index_orders = db.index_orders := by
            unfold DbState.updateOrder
            split_ifs <;> rfl
          refine ih hvalid ?_ hw1 hc1 hd1 hrun
          rw [horders]
          exact hadded

/-- C7: in every `InMemoryExecutionDatabase` state reachable from the
empty database by `add_order` and `update_order` calls in which
`update_order` is only invoked on previously added orders, the
`orders_working` and `orders_completed` index sets are disjoint, each is
a subset of the order index, and their cardinalities sum to at most
`|orders|`. -/
theorem claim_C7 :
    ∀ (ops : List DbOp) (db' : DbState),
      validOps ∅ ops = true →
      runOps DbState.empty ops = some db' →
      Disjoint db'.index_orders_working db'.index_orders_completed ∧
      db'.index_orders_working ⊆ db'.index_orders ∧
      db'.index_orders_completed ⊆ db'.index_orders ∧
      db'.index_orders_working.card + db'.index_orders_completed.card ≤
        db'.index_orders.card := by
  intro ops db' hvalid hrun
  obtain ⟨hw, hc, hd⟩ := runOps_inv hvalid (by simp) (by simp [DbState.empty])
    (by simp [DbState.empty]) (by simp [DbState.empty]) hrun
  refine ⟨hd, hw, hc, ?_⟩
  calc db'.index_orders_working.card + db'.index_orders_completed.card
      = (db'.index_orders_working ∪ db'.index_orders_completed).card := by
        rw [Finset.card_union_of_disjoint hd]
    _ ≤ db'.index_orders.card :=
        Finset.card_le_card (Finset.union_subset hw hc)

/-- A working copy of the quantity-1 order (the order object after an
`OrderWorking` event would set `is_working`), used as `update_order`
input. -/
def c7workingOrder : Order := { c1order with is_working := true }

/-- A completed copy of the quantity-2 order, used as `update_order`
input. -/
def c7completedOrder : Order := { c1order2 with is_completed := true }

/-- A concrete valid operation sequence: add two orders, move one to the
working partition and the other to the completed partition. -/
def c7ops : List DbOp :=
  [.addOrder c1order "S1" "P1",
   .updateOrder c7workingOrder,
   .addOrder c1order2 "S1" "P1",
   .updateOrder c7completedOrder]

/-- The database state after `c7ops`. -/
def c7db : DbState := (runOps DbState.empty c7ops).getD DbState.empty

/-- C7, witness: the theorem instantiated at the concrete four-operation
trace. -/
theorem claim_C7_witness :
    Disjoint c7db.index_orders_working c7db.index_orders_completed ∧
    c7db.index_orders_working ⊆ c7db.index_orders ∧
    c7db.index_orders_completed ⊆ c7db.index_orders ∧
    c7db.index_orders_working.card + c7db.index_orders_completed.card ≤
      c7db.index_orders.card :=
  claim_C7 c7ops c7db (by decide) rfl

/-! ## C6: event handling, dropped events and the event counter -/

/-- Source `ExecutionEngine.__init__`: counters at zero, no registered
strategies. -/
def Engine.init (db : DbState) (account : Account) : Engine :=
  { db := db, account := account, portfolio_returns := []
    portfolio_transactions := [], registered_strategies := ∅
    delivered := [], command_count := 0, event_count := 0, log := [] }

/-- Source `ExecutionEngine.register_strategy`: the registration check, then the
database registration. -/
def Engine.registerStrategy (s : Engine) (strategy_id : String) :
    Option Engine :=
  if strategy_id ∈ s.registered_strategies then none
  else
    match s.db.addStrategy strategy_id with
    | none => none
    | some db =>
        some { s with
          registered_strategies := insert strategy_id s.registered_strategies
          db := db }

/-- Source `_send_to_strategy` does not touch the event counter. -/
lemma Engine.sendToStrategy_event_count (s : Engine) (ev : EngineEvent)
    (sid : String) : (s.sendToStrategy ev sid).event_count = s.event_count := by
  unfold Engine.sendToStrategy
  split <;> rfl

/-- Source `_handle_position_event` does not touch the event counter. -/
lemma Engine.handlePositionEvent_event_count (s : Engine) (e : PositionEvent) :
    (s.handlePositionEvent e).event_count = s.event_count := by
  unfold Engine.handlePositionEvent
  split_ifs <;> simp [Engine.sendToStrategy_event_count]

/-- The fill sub-protocol never decreases the event counter (a derived
position event re-enters `handle_event` and increments it once more). -/
lemma Engine.handleOrderFill_event_count (s : Engine) (e : OrderEvent)
    (sid : String) : s.event_count ≤ (s.handleOrderFill e sid).1.event_count := by
  cases h1 : DbState.alistGet s.db.index_order_position e.order_id with
  | none => simp [Engine.handleOrderFill, h1]
  | some pid =>
    cases h2 : DbState.alistGet s.db.cached_positions pid with
    | none =>
        cases h3 : s.db.addPosition (Position.fromFill pid e) with
        | none => simp [Engine.handleOrderFill, h1, h2, h3]
        | some db =>
            simp [Engine.handleOrderFill, h1, h2, h3,
              Engine.handleDerivedPositionEvent,
              Engine.handlePositionEvent_event_count,
              Engine.sendToStrategy_event_count]
    | some pos =>
        simp [Engine.handleOrderFill, h1, h2,
          Engine.handleDerivedPositionEvent,
          Engine.handlePositionEvent_event_count,
          Engine.sendToStrategy_event_count]

/-- Source `_handle_order_event` never decreases the event counter. -/
lemma Engine.handleOrderEvent_event_count (s : Engine) (e : OrderEvent) :
    s.event_count ≤ (s.handleOrderEvent e).1.event_count := by
  cases h1 : DbState.alistGet s.db.cached_orders e.order_id with
  | none => simp [Engine.handleOrderEvent, h1]
  | some o =>
    cases h2 : o.apply e with
    | error msg => simp [Engine.handleOrderEvent, h1, h2]
    | ok o2 =>
      cases h3 : DbState.alistGet
          ((s.db.cacheOrder o2).updateOrder o2).index_order_strategy
          e.order_id with
      | none => simp [Engine.handleOrderEvent, h1, h2, h3]
      | some sid =>
        cases hk : e.kind
        case fill eid pb side filled avg =>
          simp only [Engine.handleOrderEvent, h1, h2, h3, hk]
          exact Engine.handleOrderFill_event_count
            { s with db := (s.db.cacheOrder o2).updateOrder o2 } e sid
        all_goals
          simp [Engine.handleOrderEvent, h1, h2, h3, hk,
            Engine.sendToStrategy_event_count]

/-- The account for the C6 engine. -/
def c6account : Account := { id := none, initialized := false, events := [] }

/-- The C6 engine after registering strategy "S1". -/
def c6engine0 : Engine :=
  ((Engine.init DbState.empty c6account).registerStrategy "S1").getD
    (Engine.init DbState.empty c6account)

/-- The C6 engine after the database half of a `SubmitOrder` command for
`c1order` (the engine's command path calls
`db.add_order(order, strategy_id, position_id)`). -/
def c6engine1 : Engine :=
  { c6engine0 with
    db := (c6engine0.db.addOrder c1order "S1" "P1").getD c6engine0.db }

/-- An `OrderSubmitted` event for `c1order` carrying account "ACC-1". -/
def c6submitted : OrderEvent :=
  { order_id := "O-1", account_id := "ACC-1", timestamp := 1
    kind := .submitted }

/-- The engine after handling `c6submitted` (the order now has
`account_id = some "ACC-1"`). -/
def c6engine2 : Engine := (c6engine1.handleEvent (.order c6submitted)).1

/-- A fill for the known order "O-1" carrying the conflicting account
"ACC-2". -/
def c6badFill : OrderEvent :=
  { order_id := "O-1", account_id := "ACC-2", timestamp := 2
    kind := .fill "E-9" "PB-1" .BUY 1 100 }

/-- Handling the conflicting fill. -/
def c6raise : Engine × Except String Unit :=
  c6engine2.handleEvent (.order c6badFill)

/-- A fill for an order id never added. -/
def c6unknownFill : OrderEvent :=
  { order_id := "O-404", account_id := "ACC-1", timestamp := 2
    kind := .fill "E-8" "PB-1" .BUY 1 100 }

/-- C6, counterexample: `handle_event` can raise for a malformed event —
an `OrderFillEvent` for a known order whose `account_id` conflicts with
the account already recorded on the order fails `Order.apply`'s
`Condition.equal` precondition and the exception propagates out of
`handle_event` (after `event_count` was already incremented), refuting
"never raises for a malformed event". -/
theorem claim_C6_counterexample :
    (c6engine1.handleEvent (.order c6submitted)).2 = .ok () ∧
    c6raise.2 = .error "account_id not equal to event.account_id" ∧
    c6raise.1.event_count = c6engine2.event_count + 1 := by
  refine ⟨rfl, rfl, by decide⟩

/-- C6 (amended): `handle_event` increments `event_count` before any
processing, so every received event — dropped or raising included —
increments the counter.  An order event whose `order_id` is not in the
database produces only an error log entry: the database (orders and
positions included), the registered strategies, the account, the
portfolio and the delivered events are all unchanged, `event_count` is
incremented by exactly one, and no exception escapes.  `handle_event`
can, however, raise on an account-id mismatch (see the counterexample). -/
theorem claim_C6 :
    (∀ (s : Engine) (e : OrderEvent),
        DbState.alistGet s.db.cached_orders e.order_id = none →
        s.handleEvent (.order e) =
          ({ s with
              event_count := s.event_count + 1
              log := s.log ++ ["error: cannot process event, order not found"] },
            .ok ())) ∧
    (∀ (s : Engine) (ev : EngineEvent),
        s.event_count + 1 ≤ (s.handleEvent ev).1.event_count) := by
  constructor
  · intro s e h
    simp [Engine.handleEvent, Engine.handleOrderEvent, h]
  · intro s ev
    cases ev with
    | order e =>
        show s.event_count + 1 ≤
          (Engine.handleOrderEvent
            { s with event_count := s.event_count + 1 } e).1.event_count
        exact Engine.handleOrderEvent_event_count
          { s with event_count := s.event_count + 1 } e
    | position e =>
        show s.event_count + 1 ≤
          (Engine.handlePositionEvent
            { s with event_count := s.event_count + 1 } e).event_count
        rw [Engine.handlePositionEvent_event_count]
    | account e =>
        show s.event_count + 1 ≤
          (Engine.handleAccountEvent
            { s with event_count := s.event_count + 1 } e).event_count
        unfold Engine.handleAccountEvent
        split_ifs <;> exact le_refl _

/-- C6, witness: the amended theorem instantiated at the concrete engine
and the fill for the unknown order "O-404". -/
theorem claim_C6_witness :
    c6engine2.handleEvent (.order c6unknownFill) =
      ({ c6engine2 with
          event_count := c6engine2.event_count + 1
          log := c6engine2.log ++
            ["error: cannot process event, order not found"] },
        .ok ()) ∧
    c6engine2.event_count + 1 ≤
      (c6engine2.handleEvent (.order c6unknownFill)).1.event_count := by
  refine ⟨claim_C6.1 c6engine2 c6unknownFill rfl,
    claim_C6.2 c6engine2 (.order c6unknownFill)⟩

/-! ## C10: `ExecutionEngine.reset` resets only the database -/

/-- C10: `reset()` clears the database's stores and indexes (the database
state becomes the empty state) while the engine's `command_count`,
`event_count` and set of registered strategies are unchanged — the
engine's private `_reset`, which would clear them, is not called by
`reset()`. -/
theorem claim_C10 :
    ∀ (s : Engine),
      s.reset.command_count = s.command_count ∧
      s.reset.event_count = s.event_count ∧
      s.reset.registered_strategies = s.registered_strategies ∧
      s.reset.delivered = s.delivered ∧
      s.reset.db = DbState.empty :=
  fun _ => ⟨rfl, rfl, rfl, rfl, rfl⟩

end Nautilus
